import Mathlib

/-
  Verification of the Hass-Parcel repository.

  The repository contains two parallel sensor-platform implementations:
  - src/sensor.py (embedded below as namespace V1): a standalone coordinator
    keeping a dict from str(shipment id) to the shipment record, with an
    id-keyed ParcelSensor and a Throttle-decorated refresh;
  - src/custom_components/hass-parcel/sensor.py (namespace V2): an API client
    plus a DataUpdateCoordinator whose dataset is the fetched list itself,
    with an index-bound ParcelDeliverySensor.

  JSON shipment records are embedded as structures whose fields are Option
  values: none models an absent key (or JSON null), so a Python dict.get with
  a default becomes Option.getD.
-/

namespace Parcel

/-- Python str.lower on the characters of a string (ASCII case folding). -/
def lowerStr (s : String) : String :=
  String.mk (s.data.map Char.toLower)

/-- Substring containment on character lists, modelling the Python
membership test of a needle inside a haystack string. -/
def containsSub (hay needle : List Char) : Bool :=
  match hay with
  | [] => needle.isEmpty
  | c :: t => needle.isPrefixOf (c :: t) || containsSub t needle

/-- The Python test checking that needle occurs inside hay as a substring. -/
def strContains (hay needle : String) : Bool :=
  containsSub hay.data needle.data

/-- Case-insensitive substring match, as the spec words it. -/
def ciContains (hay needle : String) : Bool :=
  strContains (lowerStr hay) (lowerStr needle)

/-- Outcome of one HTTP GET to the shipments endpoint: either a response with
a status code and an optional shipments array in the JSON body (none models a
body without a shipments key), or a network-level error (aiohttp ClientError
or asyncio TimeoutError raised by the session). -/
inductive FetchOutcome (α : Type) where
  | response (status : Nat) (shipments : Option (List α))
  | netError (msg : String)
  deriving DecidableEq

/-- A fetch fails when the response status is not 200 or the request raised a
network-level error. -/
def FetchOutcome.isFailure {α : Type} : FetchOutcome α → Bool
  | .response status _ => status != 200
  | .netError _ => true

/-- A heterogeneous Python attribute value: a string or a number. -/
inductive AttrVal where
  | str (s : String)
  | num (n : Nat)
  deriving DecidableEq

/-- Whether an Except value carries an error. -/
def exceptIsError {ε α : Type} : Except ε α → Bool
  | .error _ => true
  | .ok _ => false

namespace V2

/-- The value of the carrier key of a shipment: a JSON object with an
optional name key, as read by the chained dict.get calls of
update_attributes. -/
structure Carrier where
  name : Option String
  deriving DecidableEq

/-- One shipment record of the custom_components/hass-parcel JSON feed, with
the keys that sensor.py reads. A none field models an absent key. -/
structure Shipment where
  id : Option Nat
  name : Option String
  carrier : Option Carrier
  tracking_number : Option String
  status : Option String
  last_update : Option String
  estimated_delivery : Option String
  from_location : Option String
  to_location : Option String
  deriving DecidableEq

/-- The empty dict that update_attributes substitutes when the entity index
is out of range: every key is absent. -/
def emptyShipment : Shipment :=
  ⟨none, none, none, none, none, none, none, none, none⟩

/-- ParcelApiClient.get_shipments: raises on a non-200 status, otherwise
returns the shipments array of the body, defaulting to the empty list; a
network error raised by the session propagates to the caller. -/
def get_shipments (o : FetchOutcome Shipment) : Except String (List Shipment) :=
  match o with
  | .netError msg => .error msg
  | .response status shipments =>
    if status != 200 then
      .error ("Error fetching shipments: " ++ toString status)
    else
      .ok (shipments.getD [])

/-- ParcelDataUpdateCoordinator._async_update_data: returns the client result
and rewraps any fetch exception as UpdateFailed. -/
def async_update_data (o : FetchOutcome Shipment) : Except String (List Shipment) :=
  match get_shipments o with
  | .ok shipments => .ok shipments
  | .error e => .error ("Error communicating with Parcel API: " ++ e)

/-- State owned by the DataUpdateCoordinator: the last fetched shipment list
and the last-refresh-success flag. -/
structure CoordinatorState where
  data : List Shipment
  last_update_success : Bool
  deriving DecidableEq

/-- Modelled from the spec: the host DataUpdateCoordinator refresh (framework
code, not part of this repository) runs _async_update_data; on success it
stores the returned list as the dataset and marks success, and on
UpdateFailed it logs, leaves the previous dataset untouched and marks
failure, raising nothing to the caller (spec section 4.2). -/
def coordinator_refresh (o : FetchOutcome Shipment) (st : CoordinatorState) :
    CoordinatorState :=
  match async_update_data o with
  | .ok shipments => { data := shipments, last_update_success := true }
  | .error _ => { st with last_update_success := false }

/-- The status-to-color branch of ParcelDeliverySensor.update_attributes,
lines 148 to 158: lowercase the status, then test substrings in priority
order delivered, transit, exception or failed, pending or pre-transit, with
grey as the default. The source computes the lowercase status once; it is
inlined here at each test. -/
def statusColor (status : String) : String :=
  if strContains (lowerStr status) ("delivered") then "green"
  else if strContains (lowerStr status) ("transit") then "blue"
  else if strContains (lowerStr status) ("exception") || strContains (lowerStr status) ("failed") then "red"
  else if strContains (lowerStr status) ("pending") || strContains (lowerStr status) ("pre-transit") then "orange"
  else "grey"

/-- The extra state attributes dict built by update_attributes; every key is
always assigned, so a plain structure is faithful. -/
structure Attrs where
  name : String
  carrier : String
  tracking_number : String
  status : String
  last_update : String
  estimated_delivery : String
  from_location : String
  to_location : String
  shipment_id : AttrVal
  status_color : String
  deriving DecidableEq

/-- The presentation fields a ParcelDeliverySensor exposes: its native value
and its extra state attributes. -/
structure SensorView where
  native_value : String
  attrs : Attrs
  deriving DecidableEq

/-- ParcelDeliverySensor.update_attributes: reads the shipment at the entity
index in the coordinator data when the index is in range, else an empty
dict, then derives the native value and the attributes with per-key
defaults. -/
def update_attributes (data : List Shipment) (idx : Nat) : SensorView :=
  let shipment := if h : idx < data.length then data.get ⟨idx, h⟩ else emptyShipment
  { native_value := shipment.status.getD ("unknown")
    attrs :=
      { name := shipment.name.getD ("Unknown")
        carrier := (shipment.carrier.bind Carrier.name).getD ("Unknown")
        tracking_number := shipment.tracking_number.getD ("Unknown")
        status := shipment.status.getD ("Unknown")
        last_update := shipment.last_update.getD ("Unknown")
        estimated_delivery := shipment.estimated_delivery.getD ("Unknown")
        from_location := shipment.from_location.getD ("Unknown")
        to_location := shipment.to_location.getD ("Unknown")
        shipment_id :=
          match shipment.id with
          | some n => AttrVal.num n
          | none => AttrVal.str ("Unknown")
        status_color := statusColor (shipment.status.getD ("")) } }

/-- ParcelDeliverySensor.available: the coordinator flag of the last update
and the bound check of the entity index against the dataset length. -/
def available (last_update_success : Bool) (data : List Shipment) (idx : Nat) : Bool :=
  last_update_success && decide (idx < data.length)

/-- The display name assigned in ParcelDeliverySensor.__init__: the literal
Parcel Delivery text followed by the shipment name, defaulting to a hash
sign and the one-based index. -/
def displayName (shipment : Shipment) (idx : Nat) : String :=
  "Parcel Delivery " ++ shipment.name.getD ("#" ++ toString (idx + 1))

/-- The unique id assigned in ParcelDeliverySensor.__init__ from the
shipment id, defaulting to the entity index. -/
def uniqueId (shipment : Shipment) (idx : Nat) : String :=
  "parcel_delivery_" ++
    (match shipment.id with
     | some n => toString n
     | none => toString idx)

end V2

namespace V1

/-- One shipment record as read by src/sensor.py. The id key is required
there: the coordinator indexes the record with a plain subscript, so the
embedding makes it a mandatory field; the other keys are read with dict.get
and stay optional. The carrier value is read as a flat string in this
file. -/
structure Shipment where
  id : Nat
  carrier : Option String
  tracking_number : Option String
  status : Option String
  status_description : Option String
  estimated_delivery : Option String
  last_update : Option String
  location : Option String
  tracking_history : Option (List String)
  deriving DecidableEq

/-- Python dict lookup with a default of none, over an association list with
unique keys (the invariant dictInsert preserves). -/
def dictLookup (m : List (String × Shipment)) (k : String) : Option Shipment :=
  match m with
  | [] => none
  | (k2, v) :: t => if k2 = k then some v else dictLookup t k

/-- Python dict insertion: overwrite the value at an existing key, else
append the new binding. -/
def dictInsert (m : List (String × Shipment)) (k : String) (v : Shipment) :
    List (String × Shipment) :=
  match m with
  | [] => [(k, v)]
  | (k2, v2) :: t => if k2 = k then (k2, v) :: t else (k2, v2) :: dictInsert t k v

/-- The dict comprehension of ParcelDataCoordinator.async_refresh: a dict
from str(shipment id) to the shipment record, built over the fetched list. -/
def buildDataMap (shipments : List Shipment) : List (String × Shipment) :=
  shipments.foldl (fun m s => dictInsert m (toString s.id) s) []

/-- State owned by ParcelDataCoordinator: the dict of shipments by id,
initialised empty. The class keeps no success flag. -/
structure CoordinatorState where
  data : List (String × Shipment)
  deriving DecidableEq

/-- The try body of ParcelDataCoordinator.async_refresh: a network error
raised by the session escapes the body; a 200 response replaces the dataset
with the freshly keyed dict; any other status only logs and leaves the
dataset untouched. -/
def refreshBody (o : FetchOutcome Shipment) (st : CoordinatorState) :
    Except String CoordinatorState :=
  match o with
  | .netError msg => .error msg
  | .response status shipments =>
    if status = 200 then
      .ok { data := buildDataMap (shipments.getD []) }
    else
      .ok st

/-- ParcelDataCoordinator.async_refresh with its except clause: a ClientError
or TimeoutError raised inside the body is caught and logged, so the call
always returns and the state is kept on failure. -/
def async_refresh (o : FetchOutcome Shipment) (st : CoordinatorState) :
    CoordinatorState :=
  match refreshBody o st with
  | .ok st2 => st2
  | .error _ => st

/-- ParcelSensor.parcel_data: coordinator data dict.get of the entity
parcel_id, where none models the empty-dict default. -/
def parcel_data (coordData : List (String × Shipment)) (parcel_id : String) :
    Option Shipment :=
  dictLookup coordData parcel_id

/-- ParcelSensor.state: the status key of parcel_data with the unknown
default; on the empty-dict default the same get also yields unknown. -/
def state (coordData : List (String × Shipment)) (parcel_id : String) : String :=
  match parcel_data coordData parcel_id with
  | some s => s.status.getD ("unknown")
  | none => "unknown"

/-- The name assigned in ParcelSensor.__init__: an f-string joining the
configured name, the carrier and the tracking number with single spaces,
with empty-string defaults for the two gets. -/
def sensorName (coordData : List (String × Shipment)) (parcel_id : String)
    (prefixStr : String) : String :=
  let carrierStr :=
    match parcel_data coordData parcel_id with
    | some s => s.carrier.getD ("")
    | none => ""
  let trackingStr :=
    match parcel_data coordData parcel_id with
    | some s => s.tracking_number.getD ("")
    | none => ""
  prefixStr ++ " " ++ carrierStr ++ " " ++ trackingStr

/-- The attributes dict built by ParcelSensor.extra_state_attributes when
parcel_data is truthy; the location and tracking_history keys are only added
when present, the other keys always appear with possibly-none values. -/
structure Attrs where
  carrier : Option String
  tracking_number : Option String
  status : Option String
  status_description : Option String
  estimated_delivery : Option String
  last_update : Option String
  location : Option String
  tracking_history : Option (List String)
  deriving DecidableEq

/-- ParcelSensor.extra_state_attributes: starts from an empty dict, fills it
only when parcel_data is truthy (a shipment dict from the feed is nonempty,
the empty-dict default is falsy), and returns it; none is the empty dict. -/
def extra_state_attributes (coordData : List (String × Shipment))
    (parcel_id : String) : Option Attrs :=
  match parcel_data coordData parcel_id with
  | none => none
  | some s =>
    some
      { carrier := s.carrier
        tracking_number := s.tracking_number
        status := s.status
        status_description := s.status_description
        estimated_delivery := s.estimated_delivery
        last_update := s.last_update
        location := s.location
        tracking_history := s.tracking_history }

/-- DEFAULT_SCAN_INTERVAL of src/sensor.py, timedelta(minutes=30), in
seconds: the Throttle decorator argument on async_refresh. -/
def DEFAULT_SCAN_INTERVAL : Nat := 30 * 60

/-- A coordinator together with the bookkeeping of its Throttle decorator:
the time of the last refresh call that actually executed. -/
structure ThrottledCoordinator where
  coordinator : CoordinatorState
  lastCall : Option Nat
  deriving DecidableEq

/-- Modelled from the spec: the host Throttle decorator (framework code, not
part of this repository) is a minimum-interval gate preventing redundant
fetches (spec glossary): a call arriving within the minimum interval of the
last executed call is skipped, any other call runs the wrapped refresh and
records its time. -/
def throttledRefresh (o : FetchOutcome Shipment) (now : Nat)
    (tc : ThrottledCoordinator) : ThrottledCoordinator :=
  match tc.lastCall with
  | none => { coordinator := async_refresh o tc.coordinator, lastCall := some now }
  | some t =>
    if now - t < DEFAULT_SCAN_INTERVAL then tc
    else { coordinator := async_refresh o tc.coordinator, lastCall := some now }

/-- The manual-refresh service handler async_refresh_parcels registered in
async_setup_platform: it awaits coordinator.async_refresh, the
Throttle-decorated method. -/
def async_refresh_parcels (o : FetchOutcome Shipment) (now : Nat)
    (tc : ThrottledCoordinator) : ThrottledCoordinator :=
  throttledRefresh o now tc

/-- ParcelSensor.async_update, the entity update the host polling timer
drives: it awaits coordinator.async_refresh, the same Throttle-decorated
method. -/
def entity_async_update (o : FetchOutcome Shipment) (now : Nat)
    (tc : ThrottledCoordinator) : ThrottledCoordinator :=
  throttledRefresh o now tc

/-- Availability of a ParcelSensor: the class defines no available property
and its coordinator keeps no success flag, so the host Entity base default
applies (framework code, not part of this repository), which reports
constantly true whatever the coordinator data and the entity id are. -/
def available (_coordData : List (String × Shipment)) (_parcel_id : String) : Bool :=
  true

end V1

/-- The status-color mapping as the spec words it: case-insensitive
substring match with priority delivered, then transit, then exception or
failed, then pending or pre-transit, then the grey default. Stated for
comparison against the V2.statusColor definition taken from the source. -/
def statusColorSpec (status : String) : String :=
  if ciContains status ("delivered") then "green"
  else if ciContains status ("transit") then "blue"
  else if ciContains status ("exception") || ciContains status ("failed") then "red"
  else if ciContains status ("pending") || ciContains status ("pre-transit") then "orange"
  else "grey"

/-- The source mapping agrees with the spec wording on every status string:
lowercasing the haystack once is the same as the case-insensitive match,
because each needle is already lowercase. -/
theorem statusColor_eq_spec (s : String) : V2.statusColor s = statusColorSpec s := by
  unfold V2.statusColor statusColorSpec ciContains
  rw [show lowerStr ("delivered") = "delivered" from by decide,
      show lowerStr ("transit") = "transit" from by decide,
      show lowerStr ("exception") = "exception" from by decide,
      show lowerStr ("failed") = "failed" from by decide,
      show lowerStr ("pending") = "pending" from by decide,
      show lowerStr ("pre-transit") = "pre-transit" from by decide]

/-- Every status string is mapped to one of the five colors. -/
theorem statusColor_mem (s : String) :
    V2.statusColor s = "green" ∨ V2.statusColor s = "blue" ∨ V2.statusColor s = "red" ∨
      V2.statusColor s = "orange" ∨ V2.statusColor s = "grey" := by
  unfold V2.statusColor
  repeat' split
  all_goals tauto

/-- Looking a key up after a Python dict insertion finds the new value at
the inserted key and is unchanged elsewhere. -/
theorem dictLookup_insert (m : List (String × V1.Shipment)) (k : String)
    (v : V1.Shipment) (k2 : String) :
    V1.dictLookup (V1.dictInsert m k v) k2 =
      if k = k2 then some v else V1.dictLookup m k2 := by
  induction m with
  | nil => simp [V1.dictInsert, V1.dictLookup]
  | cons hd t ih =>
    obtain ⟨a, b⟩ := hd
    by_cases hak : a = k
    · subst hak
      by_cases hk2 : a = k2 <;> simp [V1.dictInsert, V1.dictLookup, hk2]
    · by_cases hk2 : a = k2
      · subst hk2
        have hne : ¬ (a = k) := hak
        have hne2 : ¬ (k = a) := fun h => hak h.symm
        simp [V1.dictInsert, V1.dictLookup, hne, hne2]
      · simp [V1.dictInsert, V1.dictLookup, hak, hk2, ih]

/-- A key is bound after folding the keyed insertions over a shipment list
exactly when some listed shipment has that id or the key was already
bound. -/
theorem dictLookup_foldl_isSome (l : List V1.Shipment)
    (m : List (String × V1.Shipment)) (k : String) :
    (V1.dictLookup (l.foldl (fun acc s => V1.dictInsert acc (toString s.id) s) m) k).isSome
      ↔ (∃ s ∈ l, toString s.id = k) ∨ (V1.dictLookup m k).isSome := by
  induction l generalizing m with
  | nil => simp
  | cons s t ih =>
    simp only [List.foldl_cons, ih, dictLookup_insert, List.mem_cons]
    by_cases h : toString s.id = k
    · simp [h]
    · constructor
      · rintro (⟨s2, hs2, hk⟩ | hsome)
        · exact Or.inl ⟨s2, Or.inr hs2, hk⟩
        · rw [if_neg h] at hsome
          exact Or.inr hsome
      · rintro (⟨s2, hs2, hk⟩ | hsome)
        · rcases hs2 with rfl | hs2
          · exact absurd hk h
          · exact Or.inl ⟨s2, hs2, hk⟩
        · exact Or.inr (by rw [if_neg h]; exact hsome)

/-- A value found after folding the keyed insertions over a shipment list is
a listed shipment stored at the key of its own id, unless it was already
bound before the fold. -/
theorem dictLookup_foldl_eq_some (l : List V1.Shipment)
    (m : List (String × V1.Shipment)) (k : String) (s : V1.Shipment)
    (h : V1.dictLookup (l.foldl (fun acc s2 => V1.dictInsert acc (toString s2.id) s2) m) k = some s) :
    (toString s.id = k ∧ s ∈ l) ∨ V1.dictLookup m k = some s := by
  induction l generalizing m with
  | nil => exact Or.inr h
  | cons s2 t ih =>
    simp only [List.foldl_cons] at h
    rcases ih _ h with ⟨hid, hmem⟩ | hm
    · exact Or.inl ⟨hid, List.mem_cons_of_mem _ hmem⟩
    · rw [dictLookup_insert] at hm
      by_cases hk : toString s2.id = k
      · rw [if_pos hk] at hm
        cases hm
        exact Or.inl ⟨hk, List.mem_cons_self _ _⟩
      · rw [if_neg hk] at hm
        exact Or.inr hm

/-- The dataset dict built by a refresh binds a key exactly when some
fetched shipment has that id. -/
theorem buildDataMap_lookup_isSome (l : List V1.Shipment) (k : String) :
    (V1.dictLookup (V1.buildDataMap l) k).isSome ↔ ∃ s ∈ l, toString s.id = k := by
  rw [V1.buildDataMap, dictLookup_foldl_isSome]
  simp [V1.dictLookup]

/-- Any value found in the dataset dict built by a refresh is a fetched
shipment stored at the key of its own id. -/
theorem buildDataMap_lookup_eq_some (l : List V1.Shipment) (k : String)
    (s : V1.Shipment) (h : V1.dictLookup (V1.buildDataMap l) k = some s) :
    toString s.id = k ∧ s ∈ l := by
  rcases dictLookup_foldl_eq_some l [] k s h with hgood | hbad
  · exact hgood
  · simp [V1.dictLookup] at hbad

/-- Sample V2 shipment with id 7 used as concrete input. -/
def shipA7 : V2.Shipment :=
  { id := some 7, name := some ("Package A"), carrier := some ⟨some ("UPS")⟩,
    tracking_number := some ("TRACKA"), status := some ("pending"),
    last_update := none, estimated_delivery := none,
    from_location := none, to_location := none }

/-- Sample V2 shipment with id 42 used as concrete input. -/
def shipB42 : V2.Shipment :=
  { id := some 42, name := some ("Package B"), carrier := some ⟨some ("FedEx")⟩,
    tracking_number := some ("TRACKB"), status := some ("delivered"),
    last_update := none, estimated_delivery := none,
    from_location := none, to_location := none }

/-- Sample V2 shipment with id 1 and status In_Transit, the scenario input
of the spec. -/
def shipTransitV2 : V2.Shipment :=
  { id := some 1, name := some ("Package 1"), carrier := some ⟨some ("DHL")⟩,
    tracking_number := some ("TRACK1"), status := some ("In_Transit"),
    last_update := none, estimated_delivery := none,
    from_location := none, to_location := none }

/-- Sample V1 shipment with id 42 used as concrete input. -/
def ship42v1 : V1.Shipment :=
  { id := 42, carrier := some ("FedEx"), tracking_number := some ("TRACKB"),
    status := some ("delivered"), status_description := none,
    estimated_delivery := none, last_update := none, location := none,
    tracking_history := none }

/-- Sample V1 shipment with id 7 used as concrete input. -/
def ship7v1 : V1.Shipment :=
  { id := 7, carrier := some ("UPS"), tracking_number := some ("TRACKA"),
    status := some ("pending"), status_description := none,
    estimated_delivery := none, last_update := none, location := none,
    tracking_history := none }

/-- Sample V1 shipment with id 1 and status In_Transit, the scenario input
of the spec. -/
def shipTransitV1 : V1.Shipment :=
  { id := 1, carrier := some ("DHL"), tracking_number := some ("X1"),
    status := some ("In_Transit"), status_description := none,
    estimated_delivery := none, last_update := none, location := none,
    tracking_history := none }

/-- Whether some shipment of the dataset list carries the given id. -/
def idPresent (data : List V2.Shipment) (pid : Nat) : Bool :=
  data.any (fun s => s.id == some pid)

/-- C1: after a successful fetch the V1 coordinator dataset equals exactly
the fetched list keyed by shipment id (a key is bound exactly when some
fetched shipment has that id, so every previous entry with an id absent
from the new list is discarded), and the V2 coordinator dataset is replaced
wholesale by the fetched list. -/
theorem c1_success_replaces_dataset (prev : V1.CoordinatorState)
    (l : List V1.Shipment) (k : String)
    (st2 : V2.CoordinatorState) (l2 : List V2.Shipment) :
    (V1.async_refresh (FetchOutcome.response 200 (some l)) prev).data = V1.buildDataMap l ∧
    ((V1.dictLookup (V1.async_refresh (FetchOutcome.response 200 (some l)) prev).data k).isSome
      ↔ ∃ s ∈ l, toString s.id = k) ∧
    (V2.coordinator_refresh (FetchOutcome.response 200 (some l2)) st2).data = l2 := by
  have hdata : (V1.async_refresh (FetchOutcome.response 200 (some l)) prev).data
      = V1.buildDataMap l := by
    simp [V1.async_refresh, V1.refreshBody]
  refine ⟨hdata, ?_, ?_⟩
  · rw [hdata]
    exact buildDataMap_lookup_isSome l k
  · simp [V2.coordinator_refresh, V2.async_update_data, V2.get_shipments]

/-- Witness for C1, the spec scenario: two consecutive successful fetches,
the first with shipment id 42, the second without it; after the second
refresh no dataset entry represents id 42. -/
theorem c1_success_replaces_dataset_witness :
    V1.dictLookup
      ((V1.async_refresh (FetchOutcome.response 200 (some [ship7v1]))
        (V1.async_refresh (FetchOutcome.response 200 (some [ship42v1])) ⟨[]⟩)).data) ("42")
      = none := by
  have h := (c1_success_replaces_dataset
    (V1.async_refresh (FetchOutcome.response 200 (some [ship42v1])) ⟨[]⟩)
    [ship7v1] ("42") ⟨[], false⟩ []).2.1
  have h2 : ¬ ∃ s ∈ [ship7v1], toString s.id = "42" := by decide
  exact Option.not_isSome_iff_eq_none.mp (fun hs => h2 (h.mp hs))

/-- Counterexample for C2: a network error on a concrete src/sensor.py
coordinator leaves the dataset untouched, yet the entity for id 42 still
reports available afterwards: its class has no available override and its
coordinator no success flag, so availability never becomes false on that
cited path. -/
theorem c2_failure_availability_counterexample :
    V1.async_refresh (FetchOutcome.netError ("boom")) ⟨V1.buildDataMap [ship42v1]⟩
      = ⟨V1.buildDataMap [ship42v1]⟩ ∧
    V1.available
      ((V1.async_refresh (FetchOutcome.netError ("boom")) ⟨V1.buildDataMap [ship42v1]⟩).data)
      ("42") = true := by decide

/-- C2 amended: on any fetch failure (non-200 status or network error) both
coordinators keep their dataset exactly unchanged and both refresh
embeddings are total functions, so nothing propagates out of the refresh
call; availability becomes false only in the custom_components
implementation, where the host coordinator flips last_update_success to
false, while a src/sensor.py ParcelSensor stays available (the inherited
host default) with its stale data. -/
theorem c2_failure_keeps_dataset (o2 : FetchOutcome V2.Shipment)
    (o1 : FetchOutcome V1.Shipment)
    (st2 : V2.CoordinatorState) (st1 : V1.CoordinatorState)
    (data : List V2.Shipment) (idx : Nat) (pid : String)
    (h2 : o2.isFailure = true) (h1 : o1.isFailure = true) :
    (V2.coordinator_refresh o2 st2).data = st2.data ∧
    (V2.coordinator_refresh o2 st2).last_update_success = false ∧
    V2.available (V2.coordinator_refresh o2 st2).last_update_success data idx = false ∧
    V1.async_refresh o1 st1 = st1 ∧
    V1.available ((V1.async_refresh o1 st1).data) pid = true := by
  have hv2 : V2.coordinator_refresh o2 st2 = { st2 with last_update_success := false } := by
    cases o2 with
    | netError msg => rfl
    | response status ships =>
      simp only [FetchOutcome.isFailure] at h2
      simp [V2.coordinator_refresh, V2.async_update_data, V2.get_shipments, h2]
  have hv1 : V1.async_refresh o1 st1 = st1 := by
    cases o1 with
    | netError msg => rfl
    | response status ships =>
      simp only [FetchOutcome.isFailure, bne_iff_ne, ne_eq] at h1
      simp [V1.async_refresh, V1.refreshBody, h1]
  refine ⟨by rw [hv2], by rw [hv2], ?_, hv1, rfl⟩
  rw [hv2]
  simp [V2.available]

/-- Witness for the amended C2: a 500 response leaves the V2 dataset as it
was, marks failure and makes the entity unavailable, and a network error
leaves the V1 dataset untouched with its entity still available. -/
theorem c2_failure_keeps_dataset_witness :
    (V2.coordinator_refresh (FetchOutcome.response 500 none) ⟨[shipA7], true⟩).data = [shipA7] ∧
    (V2.coordinator_refresh (FetchOutcome.response 500 none) ⟨[shipA7], true⟩).last_update_success = false ∧
    V2.available
      (V2.coordinator_refresh (FetchOutcome.response 500 none) ⟨[shipA7], true⟩).last_update_success
      [shipA7] 0 = false ∧
    V1.async_refresh (FetchOutcome.netError ("down")) ⟨V1.buildDataMap [ship42v1]⟩
      = ⟨V1.buildDataMap [ship42v1]⟩ ∧
    V1.available
      ((V1.async_refresh (FetchOutcome.netError ("down")) ⟨V1.buildDataMap [ship42v1]⟩).data)
      ("42") = true :=
  c2_failure_keeps_dataset (FetchOutcome.response 500 none) (FetchOutcome.netError ("down"))
    ⟨[shipA7], true⟩ ⟨V1.buildDataMap [ship42v1]⟩ [shipA7] 0 ("42") (by decide) (by decide)

/-- C3: the status-color mapping is a deterministic total function agreeing
with the spec wording (case-insensitive substring match with priority
delivered, transit, exception or failed, pending or pre-transit, default
grey) and always lands in the five-color set. -/
theorem c3_status_color_total (s : String) :
    V2.statusColor s = statusColorSpec s ∧
    (V2.statusColor s = "green" ∨ V2.statusColor s = "blue" ∨ V2.statusColor s = "red" ∨
      V2.statusColor s = "orange" ∨ V2.statusColor s = "grey") :=
  ⟨statusColor_eq_spec s, statusColor_mem s⟩

/-- Counterexample for C4: a ParcelDeliverySensor created at index 0 for the
shipment with id 42 derives, after an upstream update that put the shipment
with id 7 first, its attributes from the id 7 shipment: binding is by
position, not by the entity shipment id. -/
theorem c4_id_binding_counterexample :
    V2.uniqueId shipB42 0 = "parcel_delivery_42" ∧
    (V2.update_attributes [shipA7, shipB42] 0).attrs.shipment_id = AttrVal.num 7 ∧
    (V2.update_attributes [shipA7, shipB42] 0).attrs.name = "Package A" := by decide

/-- C4 amended: only the src/sensor.py ParcelSensor is bound by shipment id:
whatever shipment its parcel_data lookup returns has exactly the entity id
as key and comes from the fetched list, independent of list position; the
custom_components ParcelDeliverySensor instead reads the shipment at its
stored index (see the counterexample). -/
theorem c4_id_binding_amended (l : List V1.Shipment) (pid : String)
    (s : V1.Shipment) (h : V1.parcel_data (V1.buildDataMap l) pid = some s) :
    toString s.id = pid ∧ s ∈ l :=
  buildDataMap_lookup_eq_some l pid s h

/-- Witness for the amended C4 at a concrete dataset. -/
theorem c4_id_binding_amended_witness :
    toString ship42v1.id = "42" ∧ ship42v1 ∈ [ship42v1] :=
  c4_id_binding_amended [ship42v1] ("42") ship42v1 (by decide)

/-- Counterexample for C5: with a successful last refresh and a dataset
containing only the shipment with id 7, the ParcelDeliverySensor created at
index 0 for shipment id 42 still reports available, although its shipment
id is no longer present in the dataset. -/
theorem c5_available_counterexample :
    V2.uniqueId shipB42 0 = "parcel_delivery_42" ∧
    idPresent [shipA7] 42 = false ∧
    V2.available true [shipA7] 0 = true := by decide

/-- C5 amended: the entity reports available exactly when the last refresh
succeeded and the entity index is within the bounds of the current dataset
list; presence of the entity shipment id is not checked. -/
theorem c5_available_amended (b : Bool) (data : List V2.Shipment) (idx : Nat) :
    V2.available b data idx = true ↔ (b = true ∧ idx < data.length) := by
  simp [V2.available]

/-- Witness for the amended C5 at a concrete coordinator state. -/
theorem c5_available_amended_witness : V2.available true [shipA7] 0 = true :=
  (c5_available_amended true [shipA7] 0).mpr ⟨rfl, by decide⟩

/-- C6: every fetch whose response status is not 200 and every network-level
failure makes get_shipments signal an error to its caller instead of
returning data. -/
theorem c6_fetch_error_signalled (o : FetchOutcome V2.Shipment)
    (h : o.isFailure = true) :
    exceptIsError (V2.get_shipments o) = true := by
  cases o with
  | netError msg => rfl
  | response status ships =>
    simp only [FetchOutcome.isFailure] at h
    simp [V2.get_shipments, h, exceptIsError]

/-- Witness for C6: a 500 response is signalled as an error. -/
theorem c6_fetch_error_signalled_witness :
    exceptIsError (V2.get_shipments (FetchOutcome.response 500 none)) = true :=
  c6_fetch_error_signalled (FetchOutcome.response 500 none) (by decide)

/-- Counterexample for C7: after the scenario fetch whose single shipment
has status In_Transit, the sensor native value is not the lowercase
in_transit string: the code never lowercases the state. -/
theorem c7_scenario_counterexample :
    ¬ (V2.update_attributes
        ((V2.coordinator_refresh (FetchOutcome.response 200 (some [shipTransitV2]))
          ⟨[], false⟩).data) 0).native_value = "in_transit" := by decide

/-- C7 amended: for that fetch the sensor state equals the status string
verbatim, In_Transit, in both implementations, and the status_color
attribute equals blue. -/
theorem c7_scenario_amended :
    (V2.update_attributes
        ((V2.coordinator_refresh (FetchOutcome.response 200 (some [shipTransitV2]))
          ⟨[], false⟩).data) 0).native_value = "In_Transit" ∧
    (V2.update_attributes
        ((V2.coordinator_refresh (FetchOutcome.response 200 (some [shipTransitV2]))
          ⟨[], false⟩).data) 0).attrs.status_color = "blue" ∧
    V1.state ((V1.async_refresh (FetchOutcome.response 200 (some [shipTransitV1])) ⟨[]⟩).data)
      ("1") = "In_Transit" := by decide

/-- Counterexample for C8: the display name of the ParcelDeliverySensor for
a concrete shipment contains neither its carrier nor its tracking number,
so it is not a concatenation of a prefix, the carrier and the tracking
number; it is the fixed text Parcel Delivery followed by the shipment name
field. -/
theorem c8_display_name_counterexample :
    shipB42.tracking_number = some ("TRACKB") ∧
    shipB42.carrier.bind V2.Carrier.name = some ("FedEx") ∧
    strContains (V2.displayName shipB42 0) ("TRACKB") = false ∧
    strContains (V2.displayName shipB42 0) ("FedEx") = false ∧
    V2.displayName shipB42 0 = "Parcel Delivery Package B" := by decide

/-- C8 amended: only the src/sensor.py ParcelSensor display name is the
space-separated concatenation of the configured name, the shipment carrier
and its tracking number; the custom_components ParcelDeliverySensor uses
the fixed Parcel Delivery text and the shipment name field instead (see the
counterexample). -/
theorem c8_display_name_amended (coordData : List (String × V1.Shipment))
    (pid : String) (s : V1.Shipment) (prefixStr : String)
    (h : V1.dictLookup coordData pid = some s) :
    V1.sensorName coordData pid prefixStr =
      prefixStr ++ " " ++ s.carrier.getD ("") ++ " " ++ s.tracking_number.getD ("") := by
  simp [V1.sensorName, V1.parcel_data, h]

/-- Witness for the amended C8 at a concrete shipment. -/
theorem c8_display_name_amended_witness :
    V1.sensorName (V1.buildDataMap [shipTransitV1]) ("1") ("Parcel") = "Parcel DHL X1" := by
  rw [c8_display_name_amended (V1.buildDataMap [shipTransitV1]) ("1") shipTransitV1
      ("Parcel") (by decide)]
  decide

/-- C9: the manual-refresh service handler and the timer-driven entity
update invoke the identical throttled refresh operation on the same
coordinator, and the minimum-interval throttle gates any redundant call
arriving within the interval of the last executed refresh. -/
theorem c9_refresh_paths (o : FetchOutcome V1.Shipment) (now : Nat)
    (tc : V1.ThrottledCoordinator) (t : Nat) :
    V1.async_refresh_parcels o now tc = V1.entity_async_update o now tc ∧
    (tc.lastCall = some t → now - t < V1.DEFAULT_SCAN_INTERVAL →
      V1.async_refresh_parcels o now tc = tc) := by
  refine ⟨rfl, fun hlast hlt => ?_⟩
  simp [V1.async_refresh_parcels, V1.throttledRefresh, hlast, hlt]

/-- Witness for C9: at a concrete coordinator both paths coincide and a call
100 seconds after the last refresh is gated. -/
theorem c9_refresh_paths_witness :
    V1.async_refresh_parcels (FetchOutcome.netError ("err")) 100 ⟨⟨[]⟩, some 0⟩ =
      V1.entity_async_update (FetchOutcome.netError ("err")) 100 ⟨⟨[]⟩, some 0⟩ ∧
    V1.async_refresh_parcels (FetchOutcome.netError ("err")) 100 ⟨⟨[]⟩, some 0⟩ =
      ⟨⟨[]⟩, some 0⟩ :=
  ⟨(c9_refresh_paths (FetchOutcome.netError ("err")) 100 ⟨⟨[]⟩, some 0⟩ 0).1,
   (c9_refresh_paths (FetchOutcome.netError ("err")) 100 ⟨⟨[]⟩, some 0⟩ 0).2 rfl (by decide)⟩

/-- C10: reading sensor state and attributes is total for every coordinator
state: an out-of-range index yields the unknown native value, Unknown
attribute defaults and the grey status color; a present shipment with a
missing status field yields the unknown native value; a missing shipment id
in the V1 dict yields the unknown state and the empty attributes dict. -/
theorem c10_total_reads (data : List V2.Shipment) (idx : Nat)
    (coordData : List (String × V1.Shipment)) (pid : String) (s : V2.Shipment)
    (hidx : data.length ≤ idx) (hpid : V1.dictLookup coordData pid = none)
    (hs : s.status = none) :
    (V2.update_attributes data idx).native_value = "unknown" ∧
    (V2.update_attributes data idx).attrs.name = "Unknown" ∧
    (V2.update_attributes data idx).attrs.carrier = "Unknown" ∧
    (V2.update_attributes data idx).attrs.tracking_number = "Unknown" ∧
    (V2.update_attributes data idx).attrs.status = "Unknown" ∧
    (V2.update_attributes data idx).attrs.last_update = "Unknown" ∧
    (V2.update_attributes data idx).attrs.estimated_delivery = "Unknown" ∧
    (V2.update_attributes data idx).attrs.from_location = "Unknown" ∧
    (V2.update_attributes data idx).attrs.to_location = "Unknown" ∧
    (V2.update_attributes data idx).attrs.shipment_id = AttrVal.str ("Unknown") ∧
    (V2.update_attributes data idx).attrs.status_color = "grey" ∧
    (V2.update_attributes (s :: data) 0).native_value = "unknown" ∧
    V1.state coordData pid = "unknown" ∧
    V1.extra_state_attributes coordData pid = none := by
  have hnot : ¬ idx < data.length := Nat.not_lt.mpr hidx
  have hoor : V2.update_attributes data idx = V2.update_attributes [] 0 := by
    simp [V2.update_attributes, hnot]
  rw [hoor]
  refine ⟨by decide, by decide, by decide, by decide, by decide, by decide, by decide,
    by decide, by decide, by decide, by decide, ?_, ?_, ?_⟩
  · simp [V2.update_attributes, hs]
  · simp [V1.state, V1.parcel_data, hpid]
  · simp [V1.extra_state_attributes, V1.parcel_data, hpid]

/-- Witness for C10: concrete out-of-range and missing-id reads falling back
to the defaults. -/
theorem c10_total_reads_witness :
    (V2.update_attributes ([] : List V2.Shipment) 0).native_value = "unknown" ∧
    (V2.update_attributes ([] : List V2.Shipment) 0).attrs.status_color = "grey" ∧
    V1.state [] ("9") = "unknown" ∧
    V1.extra_state_attributes [] ("9") = none := by
  obtain ⟨h1, h2, h3, h4, h5, h6, h7, h8, h9, h10, h11, h12, h13, h14⟩ :=
    c10_total_reads [] 0 [] ("9") V2.emptyShipment (by decide) rfl rfl
  exact ⟨h1, h11, h13, h14⟩

end Parcel
